import Mathlib

/-!
Shallow embedding of the Curelink Disha frontend chat client:
`frontend/js/chat.js` (Session Store), `frontend/js/scroll.js`
(History Paginator), `frontend/js/websocket.js` (Transport) and the
helpers from `frontend/js/utils.js` that those components call.
-/

set_option maxRecDepth 4000

namespace Disha

/-- A chat message as exchanged with the backend. Timestamps are modelled
as milliseconds since the epoch; the source carries ISO-8601 strings and
converts with `new Date(...)`, whose numeric value orders identically. -/
structure Message where
  id : String
  role : String
  content : String
  timestamp : Nat
  options : List String := []
deriving DecidableEq

/-- Models `new Date(t).toDateString()` as used for date-divider
decisions: two timestamps produce the same date string exactly when they
fall in the same calendar day, modelled as the day index of `t`. -/
def dateString (t : Nat) : Nat := t / 86400000

/-- Models JS `String.prototype.startsWith(pre)`. -/
def startsWithStr (pre s : String) : Bool := pre.toList.isPrefixOf s.toList

/-- Models JS `String.prototype.trim()`: strip leading and trailing
whitespace. -/
def jsTrim (s : String) : String :=
  ((s.toList.dropWhile Char.isWhitespace).reverse.dropWhile
    Char.isWhitespace).reverse.asString

/-! ### The rendering of message content
`Chat.addMessage` stores a message body in the DOM either verbatim via
`textContent` (emoji-only content) or as `innerHTML =
Utils.parseFormatting(content)`. Reconciliation later compares an
incoming content string against the `textContent` read back from that
node, so the embedding reproduces this pipeline. -/

/-- Models `Utils.escapeHtml` (`div.textContent = text; div.innerHTML`):
the HTML-significant characters of a text node are entity-escaped. -/
def escapeChar (c : Char) : List Char :=
  if c = '&' then "&amp;".toList
  else if c = '<' then "&lt;".toList
  else if c = '>' then "&gt;".toList
  else [c]

/-- Models `Utils.escapeHtml`. -/
def escapeHtml (s : String) : String :=
  ((s.toList.map escapeChar).flatten).asString

/-- Non-greedy search for the closing delimiter of the JS regexes of the
shape `pat(.*?)pat`: returns the shortest newline-free inner text and the
remainder after the closing delimiter (`.` does not match a newline in a
JS regex without the `s` flag). -/
def findClose (d : List Char) : List Char → Option (List Char × List Char)
  | [] => none
  | c :: t =>
    if d.isPrefixOf (c :: t) then some ([], (c :: t).drop d.length)
    else if c = '\n' then none
    else match findClose d t with
      | some (i, a) => some (c :: i, a)
      | none => none

/-- One global left-to-right non-greedy replace pass, modelling
`formatted.replace(/pat(.*?)pat/g, openTag + "$1" + closeTag)`. Fuel
bounds the recursion; callers pass the input length plus one, which
suffices because every step consumes at least one character. -/
def replaceDelimAux (d openT closeT : List Char) : Nat → List Char → List Char
  | 0, s => s
  | _, [] => []
  | fuel + 1, c :: t =>
    if d.isPrefixOf (c :: t) then
      match findClose d ((c :: t).drop d.length) with
      | some (inner, after) =>
        openT ++ inner ++ closeT ++ replaceDelimAux d openT closeT fuel after
      | none => c :: replaceDelimAux d openT closeT fuel t
    else c :: replaceDelimAux d openT closeT fuel t

/-- One replace pass of `Utils.parseFormatting` on strings. -/
def replaceDelim (d openT closeT : String) (s : String) : String :=
  (replaceDelimAux d.toList openT.toList closeT.toList (s.toList.length + 1) s.toList).asString

/-- Models the final `formatted.replace(/\n/g, "<br>")` pass. -/
def replaceNewlines (s : String) : String :=
  ((s.toList.map (fun c => if c = '\n' then "<br>".toList else [c])).flatten).asString

/-- Models `Utils.parseFormatting`: escape HTML, rewrite the lightweight
emphasis markup to tags, then newlines to `<br>`. -/
def parseFormatting (text : String) : String :=
  let f := escapeHtml text
  let f := replaceDelim "**" "<strong>" "</strong>" f
  let f := replaceDelim "__" "<strong>" "</strong>" f
  let f := replaceDelim "*" "<em>" "</em>" f
  let f := replaceDelim "_" "<em>" "</em>" f
  replaceNewlines f

/-- Skip to just past the end of a tag. -/
def dropTag : List Char → List Char
  | [] => []
  | '>' :: t => t
  | _ :: t => dropTag t

/-- Models reading `element.textContent` after `element.innerHTML = h`,
for the HTML this client produces: tags contribute no text and the
entities written by `escapeHtml` decode back. Fuel as in
`replaceDelimAux`. -/
def textOfHtmlAux : Nat → List Char → List Char
  | 0, s => s
  | _, [] => []
  | fuel + 1, c :: t =>
    if c = '<' then textOfHtmlAux fuel (dropTag t)
    else if c = '&' then
      if "amp;".toList.isPrefixOf t then '&' :: textOfHtmlAux fuel (t.drop 4)
      else if "lt;".toList.isPrefixOf t then '<' :: textOfHtmlAux fuel (t.drop 3)
      else if "gt;".toList.isPrefixOf t then '>' :: textOfHtmlAux fuel (t.drop 3)
      else '&' :: textOfHtmlAux fuel t
    else c :: textOfHtmlAux fuel t

/-- Models reading `element.textContent` back from rendered HTML. -/
def textOfHtml (s : String) : String :=
  (textOfHtmlAux (s.toList.length + 1) s.toList).asString

/-- Models the Unicode Emoji character property consulted by the source
regex in `Utils.isEmojiOnly`; covers the ASCII code points carrying the
property and the principal emoji blocks (the complete property table is
platform Unicode data external to the source). -/
def isEmojiChar (c : Char) : Bool :=
  let n := c.toNat
  decide (n = 0x23) || decide (n = 0x2A) ||
  (decide (0x30 ≤ n) && decide (n ≤ 0x39)) ||
  decide (n = 0xA9) || decide (n = 0xAE) ||
  decide (n = 0x203C) || decide (n = 0x2049) ||
  decide (n = 0x2122) || decide (n = 0x2139) ||
  (decide (0x2194 ≤ n) && decide (n ≤ 0x21AA)) ||
  (decide (0x231A ≤ n) && decide (n ≤ 0x23FA)) ||
  (decide (0x2600 ≤ n) && decide (n ≤ 0x27BF)) ||
  (decide (0x2B00 ≤ n) && decide (n ≤ 0x2BFF)) ||
  (decide (0x1F000 ≤ n) && decide (n ≤ 0x1FAFF))

/-- Length of a string in UTF-16 code units, as JS `.length` counts. -/
def utf16Len (s : String) : Nat :=
  (s.toList.map (fun c => if c.toNat ≥ 0x10000 then 2 else 1)).sum

/-- Models `Utils.isEmojiOnly`: the trimmed text matches the emoji/space
character class (with at least one character) and is at most 8 UTF-16
units long. -/
def isEmojiOnly (text : String) : Bool :=
  let t := jsTrim text
  (!t.toList.isEmpty && t.toList.all (fun c => isEmojiChar c || c.isWhitespace))
    && decide (utf16Len t ≤ 8)

/-- The `textContent` read back from the `.message-content` node that
`Chat.addMessage` builds: emoji-only content is stored verbatim via
`textContent`; everything else goes through
`innerHTML = Utils.parseFormatting(content)`. -/
def renderText (content : String) : String :=
  if isEmojiOnly content then content else textOfHtml (parseFormatting content)

/-! ### The Session Store (`frontend/js/chat.js`) -/

/-- The rendered DOM state of one `.message-wrapper`: its
`data-message-id`, its role class, the source message content (carried as
specification ghost data), the displayed text of its `.message-content`
child, the message timestamp, and the `optimistic` and `failed` classes. -/
structure Wrapper where
  messageId : String
  role : String
  content : String
  contentText : String
  timestamp : Nat
  optimistic : Bool
  failed : Bool
deriving DecidableEq

/-- One child of the messages container: a message wrapper or a date
divider built by `Chat.createDateDivider(timestamp)`. -/
inductive Node where
  | wrapper (w : Wrapper)
  | divider (timestamp : Nat)
deriving DecidableEq

/-- The Session Store state relevant to the claims: the children of the
messages container, the `lastMessageDate` field (as a date index; `null`
is `none`), the in-flight send guard, the input field value, the typing
indicator, and the toasts shown so far (`Utils.showToast`). -/
structure ChatState where
  container : List Node
  lastMessageDate : Option Nat
  isSending : Bool
  inputValue : String
  typing : Bool
  toasts : List String
deriving DecidableEq

/-- The state after `Chat.clear()` in a fresh page. -/
def initChat : ChatState :=
  { container := [], lastMessageDate := none, isSending := false,
    inputValue := "", typing := false, toasts := [] }

/-- Models `document.querySelector` with the attribute selector matching
`data-message-id` values beginning in `temp-`: the first provisional
wrapper in document order (dividers carry no message id). -/
def firstTemp : List Node → Option Wrapper
  | [] => none
  | .wrapper w :: rest =>
    if startsWithStr "temp-" w.messageId then some w else firstTemp rest
  | .divider _ :: rest => firstTemp rest

/-- The in-place reconciliation write of `Chat.addMessage`: rewrite the
first provisional wrapper to carry the authoritative id and drop its
`optimistic` class; nothing else changes. -/
def rewriteFirstTemp (newId : String) : List Node → List Node
  | [] => []
  | .wrapper w :: rest =>
    if startsWithStr "temp-" w.messageId then
      .wrapper { w with messageId := newId, optimistic := false } :: rest
    else .wrapper w :: rewriteFirstTemp newId rest
  | .divider t :: rest => .divider t :: rewriteFirstTemp newId rest

/-- The wrapper node `Chat.addMessage` builds for a message. -/
def mkWrapper (m : Message) : Wrapper :=
  { messageId := m.id, role := m.role, content := m.content,
    contentText := renderText m.content, timestamp := m.timestamp,
    optimistic := startsWithStr "temp-" m.id, failed := false }

/-- Models `Chat.addMessage(message, prepend)` past the early
reconciliation return: date-divider bookkeeping and insertion. When
appending, a divider is appended first whenever the date changed and a
previous date exists; when prepending, neither divider logic nor
`lastMessageDate` is touched and the wrapper is inserted at the front. -/
def addMessageRest (st : ChatState) (m : Message) (prepend : Bool) : ChatState :=
  let w := mkWrapper m
  let messageDate := dateString m.timestamp
  if prepend then { st with container := .wrapper w :: st.container }
  else
    match st.lastMessageDate with
    | none =>
      { st with container := st.container ++ [.wrapper w],
                lastMessageDate := some messageDate }
    | some d =>
      if d = messageDate then
        { st with container := st.container ++ [.wrapper w] }
      else
        { st with container := st.container ++ [.divider m.timestamp, .wrapper w],
                  lastMessageDate := some messageDate }

/-- Models `Chat.addMessage`: a confirmed user message first tries to
reconcile against the first provisional wrapper by comparing the incoming
content with that wrapper's displayed text; on a match the wrapper is
rewritten in place and nothing is inserted, otherwise the message is
inserted normally. -/
def addMessage (st : ChatState) (m : Message) (prepend : Bool) : ChatState :=
  if (m.role == "user") && !(startsWithStr "temp-" m.id) then
    match firstTemp st.container with
    | some w =>
      if w.contentText = m.content then
        { st with container := rewriteFirstTemp m.id st.container }
      else addMessageRest st m prepend
    | none => addMessageRest st m prepend
  else addMessageRest st m prepend

/-- Stable ascending insertion; `sortByTs` models
`[...messages].sort((a, b) => new Date(a.timestamp) - new Date(b.timestamp))`
(JS array sort is stable and this comparator orders by timestamp). -/
def insertByTs (m : Message) : List Message → List Message
  | [] => [m]
  | x :: xs =>
    if x.timestamp ≤ m.timestamp then x :: insertByTs m xs else m :: x :: xs

/-- The stable ascending sort used by `Chat.prependMessages`. -/
def sortByTs (l : List Message) : List Message :=
  l.foldl (fun acc m => insertByTs m acc) []

/-- The document fragment `Chat.prependMessages` builds: a divider before
every date change within the page, including one before the first message
of the page because `lastDate` starts out `null`. Wrappers built here
carry neither the `optimistic` class nor options. -/
def buildFragment : Option Nat → List Message → List Node
  | _, [] => []
  | lastDate, m :: rest =>
    let d := dateString m.timestamp
    let w : Wrapper :=
      { messageId := m.id, role := m.role, content := m.content,
        contentText := renderText m.content, timestamp := m.timestamp,
        optimistic := false, failed := false }
    if lastDate = some d then .wrapper w :: buildFragment (some d) rest
    else .divider m.timestamp :: .wrapper w :: buildFragment (some d) rest

/-- Models `Chat.prependMessages`: sort the page ascending, build the
fragment, insert it before the existing first child. `lastMessageDate`
is not touched. -/
def prependMessages (st : ChatState) (messages : List Message) : ChatState :=
  { st with container := buildFragment none (sortByTs messages) ++ st.container }

/-- The provisional send recorded at the suspension point of
`Chat.sendMessage`. -/
structure SendPending where
  tempId : String
  content : String
deriving DecidableEq

/-- The resolution of the awaited `API.sendMessage` call: a response
(whose `assistant_message` may be `null`) or a thrown error with its
message. -/
inductive SendOutcome where
  | success (assistantMessage : Option Message)
  | failure (errMessage : String)
deriving DecidableEq

/-- The effective content of `Chat.sendMessage(text)`:
`text || this.input.value.trim()` — a non-empty `text` argument is used
untrimmed, otherwise the trimmed input field value. -/
def effectiveContent (st : ChatState) (text : Option String) : String :=
  match text with
  | some t => if t = "" then jsTrim st.inputValue else t
  | none => jsTrim st.inputValue

/-- The synchronous prefix of `Chat.sendMessage(text)` up to the
`await API.sendMessage(...)` suspension point, with `now` the value of
`Date.now()`. Returns the state at the suspension and the request that
was issued, or `none` when the guard rejected the call (then the state
is returned unchanged and no request is issued). Scrolling and focus are
presentation-only and not modelled. -/
def sendMessageStart (st : ChatState) (text : Option String) (now : Nat) :
    ChatState × Option SendPending :=
  let content := effectiveContent st text
  if (content == "") || st.isSending then (st, none)
  else
    let tempMsg : Message :=
      { id := "temp-" ++ toString now, role := "user", content := content,
        timestamp := now }
    let st1 := addMessage { st with isSending := true } tempMsg false
    let st2 := if (text == none) || (text == some "") then
        { st1 with inputValue := "" }
      else st1
    (({ st2 with typing := true } : ChatState),
     some { tempId := tempMsg.id, content := content })

/-- Models `querySelector` on the exact `data-message-id` value followed
by `classList.add("failed")`: flag the first wrapper carrying the
provisional id; no node is removed and nothing happens without a match. -/
def markFailedFirst (tempId : String) : List Node → List Node
  | [] => []
  | .wrapper w :: rest =>
    if w.messageId = tempId then .wrapper { w with failed := true } :: rest
    else .wrapper w :: markFailedFirst tempId rest
  | .divider t :: rest => .divider t :: markFailedFirst tempId rest

/-- The continuation of `Chat.sendMessage` from the suspension point: the
`try` success branch (hide typing, add the assistant message if any), the
`catch` branch (toast the error message or the fallback text, flag the
provisional entry as failed, hide typing), and the `finally` block, which
always releases the in-flight guard. -/
def sendMessageFinish (st : ChatState) (p : SendPending) (o : SendOutcome) : ChatState :=
  let st1 := match o with
    | .success am =>
      let sa := { st with typing := false }
      match am with
      | some m => addMessage sa m false
      | none => sa
    | .failure e =>
      let sb := { st with
        toasts := st.toasts ++ [if e = "" then "Failed to send message" else e] }
      let sc := { sb with container := markFailedFirst p.tempId sb.container }
      { sc with typing := false }
  { st1 with isSending := false }

/-! ### The History Paginator (`frontend/js/scroll.js`) -/

/-- The paginator state: the fetch guard, the `hasMore` flag, the cursor
(`null` is `none`), the scroll offset of the container, and whether the
load-more indicator is displayed. -/
structure ScrollState where
  isLoadingMore : Bool
  hasMoreMessages : Bool
  oldestMessageId : Option String
  scrollTop : Nat
  loadingIndicator : Bool
deriving DecidableEq

/-- The combined client state the paginator operates on. -/
structure AppState where
  chat : ChatState
  scroll : ScrollState
deriving DecidableEq

/-- Models `container.scrollHeight`: a base extent for the surrounding
chrome plus the rendered height of every child of the messages
container; the per-node height assignment is an arbitrary parameter of
the model. -/
def extent (h : Node → Nat) (base : Nat) (container : List Node) : Nat :=
  base + (container.map h).sum

/-- JS falsiness of a nullable string value (`!x`). -/
def falsyStr : Option String → Bool
  | none => true
  | some s => s == ""

/-- The older-page request `API.getMessages(userId, beforeId, 20)`. -/
structure FetchReq where
  userId : String
  beforeId : String
  limit : Nat
deriving DecidableEq

/-- What `loadOlderMessages` holds across its suspension point: the
issued request and the scroll extent and offset recorded before it. -/
structure LoadPending where
  req : FetchReq
  savedScrollHeight : Nat
  savedScrollTop : Nat
deriving DecidableEq

/-- The older-page response shape
`{ messages, has_more, next_cursor? }`. -/
structure PageResponse where
  messages : List Message
  has_more : Bool
  next_cursor : Option String := none
deriving DecidableEq

/-- The resolution of the awaited page fetch. -/
inductive FetchOutcome where
  | success (r : PageResponse)
  | failure (errMessage : String)
deriving DecidableEq

/-- The synchronous prefix of `ScrollManager.loadOlderMessages()` up to
`await API.getMessages(...)`; `storedUserId` is
`Utils.storage.get("userId")`. When the single-flight guard rejects, the
state is returned unchanged and no fetch is issued. When the stored user
id is falsy, the early return inside `try` passes through `finally`,
which resets the flag and indicator it had just set, so the state is
returned net-unchanged with no fetch. Otherwise the guard is taken, the
extent and offset are recorded, and the fetch is issued. -/
def loadOlderStart (h : Node → Nat) (base : Nat) (app : AppState)
    (storedUserId : Option String) : AppState × Option LoadPending :=
  let s := app.scroll
  if s.isLoadingMore || !s.hasMoreMessages || falsyStr s.oldestMessageId then
    (app, none)
  else if falsyStr storedUserId then (app, none)
  else
    let uid := match storedUserId with | some x => x | none => ""
    let oldest := match s.oldestMessageId with | some x => x | none => ""
    ({ app with scroll := { s with isLoadingMore := true, loadingIndicator := true } },
     some { req := { userId := uid, beforeId := oldest, limit := 20 },
            savedScrollHeight := extent h base app.chat.container,
            savedScrollTop := s.scrollTop })

/-- The continuation of `ScrollManager.loadOlderMessages()` from the
suspension point: on a non-empty page, advance the cursor (the server
cursor if truthy, else the first returned message id), update `hasMore`,
prepend the page, and restore the anchor by adding the growth in extent
to the saved offset; on an empty page, just clear `hasMore`; on an
error, toast; in all outcomes the `finally` block clears the fetch guard
and hides the indicator. -/
def loadOlderFinish (h : Node → Nat) (base : Nat) (app : AppState)
    (p : LoadPending) (o : FetchOutcome) : AppState :=
  let app1 := match o with
    | .success r =>
      match r.messages with
      | [] => { app with scroll := { app.scroll with hasMoreMessages := false } }
      | m0 :: _ =>
        let oldest := match r.next_cursor with
          | some c => if c = "" then m0.id else c
          | none => m0.id
        let s := { app.scroll with oldestMessageId := some oldest,
                                   hasMoreMessages := r.has_more }
        let chat := prependMessages app.chat r.messages
        let newHeight := extent h base chat.container
        { chat := chat,
          scroll := { s with
            scrollTop := p.savedScrollTop + (newHeight - p.savedScrollHeight) } }
    | .failure _ =>
      { app with chat := { app.chat with
          toasts := app.chat.toasts ++ ["Failed to load older messages"] } }
  { app1 with scroll := { app1.scroll with isLoadingMore := false,
                                           loadingIndicator := false } }

/-! ### The Transport (`frontend/js/websocket.js`) -/

/-- The Transport state the claims are about: the reconnect counter, its
cap, and whether the keepalive timer is running. -/
structure WSState where
  reconnectAttempts : Nat
  maxReconnectAttempts : Nat
  pingActive : Bool
deriving DecidableEq

/-- The fixed reconnect delay (`reconnectInterval: 3000`). -/
def reconnectInterval : Nat := 3000

/-- The initial Transport state (`reconnectAttempts: 0`,
`maxReconnectAttempts: 5`). -/
def initWS : WSState :=
  { reconnectAttempts := 0, maxReconnectAttempts := 5, pingActive := false }

/-- Models `socket.onopen`: reset the failure counter to zero and start
the keepalive timer. -/
def wsOnOpen (s : WSState) : WSState :=
  { s with reconnectAttempts := 0, pingActive := true }

/-- Models `socket.onclose`: stop the keepalive timer; if budget
remains, increment the counter and schedule `connect` after the fixed
delay (returned as `some delay`); otherwise schedule nothing. -/
def wsOnClose (s : WSState) : WSState × Option Nat :=
  let s1 := { s with pingActive := false }
  if s1.reconnectAttempts < s1.maxReconnectAttempts then
    ({ s1 with reconnectAttempts := s1.reconnectAttempts + 1 }, some reconnectInterval)
  else (s1, none)

/-- Models `socket.onerror`: logs only, no state transition. -/
def wsOnError (s : WSState) : WSState := s

/-- A socket callback delivered to the Transport. -/
inductive WSEvent where
  | onOpen
  | onClose
  | onError
deriving DecidableEq

/-- One callback step, returning the delay of any scheduled reconnect. -/
def wsStep (s : WSState) : WSEvent → WSState × Option Nat
  | .onOpen => (wsOnOpen s, none)
  | .onClose => wsOnClose s
  | .onError => (wsOnError s, none)

/-- Run a sequence of socket callbacks, counting how many automatic
reconnects get scheduled along the way. -/
def wsRun (s : WSState) : List WSEvent → WSState × Nat
  | [] => (s, 0)
  | e :: evs =>
    let r := wsStep s e
    let rest := wsRun r.1 evs
    (rest.1, (match r.2 with | some _ => 1 | none => 0) + rest.2)

/-! ### Specification predicates -/

/-- Walk the container checking the divider placement property claimed
by the spec: a divider stands between two adjacent wrappers exactly when
their calendar dates differ, and dividers appear nowhere else (not
before the first wrapper, not at the end, never doubled). `prev` is the
date of the last wrapper passed, `pending` whether a divider is waiting
for its following wrapper. -/
def divOk2 : Option Nat → Bool → List Node → Bool
  | _, pending, [] => !pending
  | prev, pending, .wrapper w :: rest =>
    (match prev, pending with
     | none, false => true
     | none, true => false
     | some d, false => d == dateString w.timestamp
     | some d, true => d != dateString w.timestamp)
    && divOk2 (some (dateString w.timestamp)) false rest
  | prev, pending, .divider _ :: rest =>
    match prev, pending with
    | some _, false => divOk2 prev true rest
    | _, _ => false

/-- Date dividers appear exactly at calendar-date boundaries between
adjacent messages and nowhere else. -/
def dividerInvariant (l : List Node) : Bool := divOk2 none false l

/-- Date of the last wrapper in the list, else the incoming accumulator. -/
def lastDateAux (prev : Option Nat) : List Node → Option Nat
  | [] => prev
  | .wrapper w :: rest => lastDateAux (some (dateString w.timestamp)) rest
  | .divider _ :: rest => lastDateAux prev rest

/-- The invariant maintained by the append path: dividers are correctly
placed and `lastMessageDate` tracks the date of the last wrapper. -/
def chatInv (st : ChatState) : Prop :=
  dividerInvariant st.container = true ∧
  st.lastMessageDate = lastDateAux none st.container

/-- A sequence of appends through `Chat.addMessage`. -/
def appendMessages (st : ChatState) (msgs : List Message) : ChatState :=
  msgs.foldl (fun s m => addMessage s m false) st

/-- Number of wrapper entries displaying a given source content. -/
def contentCount (c : String) (l : List Node) : Nat :=
  (l.filter (fun n => match n with
    | .wrapper w => w.content == c
    | .divider _ => false)).length

/-- Number of wrapper entries in the container. -/
def wrapperCount (l : List Node) : Nat :=
  (l.filter (fun n => match n with
    | .wrapper _ => true
    | .divider _ => false)).length

/-- Whether some wrapper carries the given message id. -/
def hasWrapperId (i : String) (l : List Node) : Bool :=
  l.any (fun n => match n with
    | .wrapper w => w.messageId == i
    | .divider _ => false)

/-- Number of failed wrapper entries displaying a given content. -/
def failedCountWithContent (c : String) (l : List Node) : Nat :=
  (l.filter (fun n => match n with
    | .wrapper w => (w.content == c) && w.failed
    | .divider _ => false)).length

/-- Whether some provisional (temp-id) wrapper displays this content. -/
def hasTempWithContent (c : String) (l : List Node) : Bool :=
  l.any (fun n => match n with
    | .wrapper w => startsWithStr "temp-" w.messageId && (w.content == c)
    | .divider _ => false)

/-! ### Helper lemmas -/

theorem startsWithStr_append (s t : String) : startsWithStr s (s ++ t) = true := by
  simp [startsWithStr, List.isPrefixOf_iff_prefix, String.toList]

theorem getLast?_append_singleton {α : Type} (l : List α) (a : α) :
    (l ++ [a]).getLast? = some a := by
  induction l with
  | nil => rfl
  | cons x xs ih =>
    rw [List.cons_append]
    rw [List.getLast?_cons]
    rw [ih]
    rfl

theorem addMessageRest_isSending (st : ChatState) (m : Message) (pp : Bool) :
    (addMessageRest st m pp).isSending = st.isSending := by
  unfold addMessageRest
  cases pp
  · cases st.lastMessageDate with
    | none => simp
    | some d =>
      by_cases hd : d = dateString m.timestamp <;> simp [hd]
  · simp

theorem addMessageRest_toasts (st : ChatState) (m : Message) (pp : Bool) :
    (addMessageRest st m pp).toasts = st.toasts := by
  unfold addMessageRest
  cases pp
  · cases st.lastMessageDate with
    | none => simp
    | some d =>
      by_cases hd : d = dateString m.timestamp <;> simp [hd]
  · simp

theorem addMessage_isSending (st : ChatState) (m : Message) (pp : Bool) :
    (addMessage st m pp).isSending = st.isSending := by
  unfold addMessage
  split
  · cases h : firstTemp st.container with
    | some w =>
      by_cases hc : w.contentText = m.content <;>
        simp [hc, addMessageRest_isSending]
    | none => simp [addMessageRest_isSending]
  · simp [addMessageRest_isSending]

theorem addMessage_toasts (st : ChatState) (m : Message) (pp : Bool) :
    (addMessage st m pp).toasts = st.toasts := by
  unfold addMessage
  split
  · cases h : firstTemp st.container with
    | some w =>
      by_cases hc : w.contentText = m.content <;>
        simp [hc, addMessageRest_toasts]
    | none => simp [addMessageRest_toasts]
  · simp [addMessageRest_toasts]

theorem addMessage_temp_container (st : ChatState) (m : Message)
    (hm : startsWithStr "temp-" m.id = true) :
    (addMessage st m false).container
        = st.container ++ [.wrapper (mkWrapper m)]
    ∨ (addMessage st m false).container
        = st.container ++ [.divider m.timestamp, .wrapper (mkWrapper m)] := by
  unfold addMessage
  rw [hm]
  simp only [Bool.not_true, Bool.and_false, Bool.false_eq_true, if_false]
  unfold addMessageRest
  cases st.lastMessageDate with
  | none => left; simp
  | some d =>
    by_cases hd : d = dateString m.timestamp
    · left; simp [hd]
    · right; simp [hd]

theorem sendMessageStart_spec (st : ChatState) (text : Option String) (now : Nat)
    (st1 : ChatState) (p : SendPending)
    (h : sendMessageStart st text now = (st1, some p)) :
    p = { tempId := "temp-" ++ toString now, content := effectiveContent st text }
    ∧ st1.isSending = true
    ∧ st1.toasts = st.toasts
    ∧ (st1.container = st.container ++
         [.wrapper (mkWrapper
           { id := "temp-" ++ toString now, role := "user",
             content := effectiveContent st text, timestamp := now })]
       ∨ st1.container = st.container ++
         [.divider now,
          .wrapper (mkWrapper
           { id := "temp-" ++ toString now, role := "user",
             content := effectiveContent st text, timestamp := now })]) := by
  unfold sendMessageStart at h
  by_cases hg : ((effectiveContent st text == "") || st.isSending) = true
  · rw [if_pos hg] at h
    simp at h
  · rw [if_neg hg] at h
    have h1 : st1 = _ := (Prod.mk.injEq _ _ _ _ ▸ h).1.symm
    have h2 : some p = _ := (Prod.mk.injEq _ _ _ _ ▸ h).2.symm
    rw [Option.some.injEq] at h2
    subst h1
    constructor
    · exact h2.symm ▸ rfl
    refine ⟨?_, ?_, ?_⟩
    · show (if _ then _ else _ : ChatState).isSending = true
      split <;> simp [addMessage_isSending]
    · show (if _ then _ else _ : ChatState).toasts = st.toasts
      split <;> simp [addMessage_toasts]
    · show (if _ then _ else _ : ChatState).container = _ ∨
           (if _ then _ else _ : ChatState).container = _
      have hc := addMessage_temp_container { st with isSending := true }
        { id := "temp-" ++ toString now, role := "user",
          content := effectiveContent st text, timestamp := now }
        (startsWithStr_append "temp-" (toString now))
      rcases hc with hc | hc
      · left
        split <;> simpa using hc
      · right
        split <;> simpa using hc

theorem rewriteFirstTemp_length (i : String) (l : List Node) :
    (rewriteFirstTemp i l).length = l.length := by
  induction l with
  | nil => rfl
  | cons n rest ih =>
    cases n with
    | wrapper w =>
      by_cases h : startsWithStr "temp-" w.messageId = true <;>
        simp [rewriteFirstTemp, h, ih]
    | divider t => simp [rewriteFirstTemp, ih]

theorem wrapperCount_rewriteFirstTemp (i : String) (l : List Node) :
    wrapperCount (rewriteFirstTemp i l) = wrapperCount l := by
  induction l with
  | nil => rfl
  | cons n rest ih =>
    cases n with
    | wrapper w =>
      by_cases h : startsWithStr "temp-" w.messageId = true
      · simp [rewriteFirstTemp, h, wrapperCount, List.filter]
      · simp [rewriteFirstTemp, h, wrapperCount, List.filter] at ih ⊢
        omega
    | divider t =>
      simp [rewriteFirstTemp, wrapperCount, List.filter] at ih ⊢
      exact ih

theorem firstTemp_startsWith (l : List Node) (w : Wrapper)
    (h : firstTemp l = some w) : startsWithStr "temp-" w.messageId = true := by
  induction l with
  | nil => simp [firstTemp] at h
  | cons n rest ih =>
    cases n with
    | wrapper w2 =>
      by_cases h2 : startsWithStr "temp-" w2.messageId = true
      · rw [firstTemp, if_pos h2, Option.some.injEq] at h
        subst h; exact h2
      · rw [firstTemp, if_neg h2] at h
        exact ih h
    | divider t =>
      rw [firstTemp] at h
      exact ih h

theorem markFailedFirst_length (i : String) (l : List Node) :
    (markFailedFirst i l).length = l.length := by
  induction l with
  | nil => rfl
  | cons n rest ih =>
    cases n with
    | wrapper w =>
      by_cases h : w.messageId = i <;> simp [markFailedFirst, h, ih]
    | divider t => simp [markFailedFirst, ih]

theorem markFailedFirst_append_fresh (i : String) (l l2 : List Node)
    (h : hasWrapperId i l = false) :
    markFailedFirst i (l ++ l2) = l ++ markFailedFirst i l2 := by
  induction l with
  | nil => rfl
  | cons n rest ih =>
    cases n with
    | wrapper w =>
      simp [hasWrapperId] at h
      have hw : ¬ w.messageId = i := by
        intro he
        exact absurd (Or.inl he) (by
          intro hor
          rcases hor with h1 | h1
          · exact h.1 h1
          · exact h1)
      simp [markFailedFirst, hw]
      exact ih (by simp [hasWrapperId]; exact h.2)
    | divider t =>
      simp [hasWrapperId] at h
      simp [markFailedFirst]
      exact ih (by simp [hasWrapperId]; exact h)

theorem divOk2_rewriteFirstTemp (i : String) (l : List Node) :
    ∀ prev pending, divOk2 prev pending (rewriteFirstTemp i l)
      = divOk2 prev pending l := by
  induction l with
  | nil => intro prev pending; rfl
  | cons n rest ih =>
    intro prev pending
    cases n with
    | wrapper w =>
      by_cases h : startsWithStr "temp-" w.messageId = true <;>
        simp [rewriteFirstTemp, h, divOk2, ih]
    | divider t =>
      cases prev with
      | none => simp [rewriteFirstTemp, divOk2]
      | some d =>
        cases pending <;> simp [rewriteFirstTemp, divOk2, ih]

theorem lastDateAux_rewriteFirstTemp (i : String) (l : List Node) :
    ∀ prev, lastDateAux prev (rewriteFirstTemp i l) = lastDateAux prev l := by
  induction l with
  | nil => intro prev; rfl
  | cons n rest ih =>
    intro prev
    cases n with
    | wrapper w =>
      by_cases h : startsWithStr "temp-" w.messageId = true <;>
        simp [rewriteFirstTemp, h, lastDateAux, ih]
    | divider t => simp [rewriteFirstTemp, lastDateAux, ih]

theorem lastDateAux_append (l l2 : List Node) :
    ∀ prev, lastDateAux prev (l ++ l2) = lastDateAux (lastDateAux prev l) l2 := by
  induction l with
  | nil => intro prev; rfl
  | cons n rest ih =>
    intro prev
    cases n with
    | wrapper w => simp [lastDateAux, ih]
    | divider t => simp [lastDateAux, ih]

theorem divOk2_append (l l2 : List Node) :
    ∀ prev pending, divOk2 prev pending l = true →
      divOk2 prev pending (l ++ l2) = divOk2 (lastDateAux prev l) false l2 := by
  induction l with
  | nil =>
    intro prev pending h
    cases pending with
    | true => exact Bool.noConfusion h
    | false => rfl
  | cons n rest ih =>
    intro prev pending h
    cases n with
    | wrapper w =>
      cases prev with
      | none =>
        cases pending with
        | true => exact Bool.noConfusion h
        | false =>
          show divOk2 (some (dateString w.timestamp)) false (rest ++ l2)
            = divOk2 (lastDateAux (some (dateString w.timestamp)) rest) false l2
          exact ih _ _ h
      | some d =>
        cases pending with
        | false =>
          have h2 : ((d == dateString w.timestamp)
              && divOk2 (some (dateString w.timestamp)) false rest) = true := h
          simp only [Bool.and_eq_true] at h2
          show ((d == dateString w.timestamp)
              && divOk2 (some (dateString w.timestamp)) false (rest ++ l2))
            = divOk2 (lastDateAux (some (dateString w.timestamp)) rest) false l2
          rw [h2.1, Bool.true_and]
          exact ih _ _ h2.2
        | true =>
          have h2 : ((d != dateString w.timestamp)
              && divOk2 (some (dateString w.timestamp)) false rest) = true := h
          simp only [Bool.and_eq_true] at h2
          show ((d != dateString w.timestamp)
              && divOk2 (some (dateString w.timestamp)) false (rest ++ l2))
            = divOk2 (lastDateAux (some (dateString w.timestamp)) rest) false l2
          rw [h2.1, Bool.true_and]
          exact ih _ _ h2.2
    | divider t =>
      cases prev with
      | none =>
        cases pending with
        | true => exact Bool.noConfusion h
        | false => exact Bool.noConfusion h
      | some d =>
        cases pending with
        | true => exact Bool.noConfusion h
        | false =>
          show divOk2 (some d) true (rest ++ l2)
            = divOk2 (lastDateAux (some d) rest) false l2
          exact ih _ _ h

theorem chatInv_addMessageRest (st : ChatState) (m : Message)
    (hinv : chatInv st) : chatInv (addMessageRest st m false) := by
  obtain ⟨h1, h2⟩ := hinv
  rw [dividerInvariant] at h1
  unfold addMessageRest
  simp only [Bool.false_eq_true, if_false]
  split
  · next hld =>
    have hld2 : lastDateAux none st.container = none := by rw [← h2]; exact hld
    refine ⟨?_, ?_⟩
    · show divOk2 none false (st.container ++ [_]) = true
      rw [divOk2_append _ _ _ _ h1, hld2]
      rfl
    · show some _ = lastDateAux none (st.container ++ [_])
      rw [lastDateAux_append, hld2]
      rfl
  · next d hld =>
    have hld2 : lastDateAux none st.container = some d := by rw [← h2]; exact hld
    split
    · next hd =>
      refine ⟨?_, ?_⟩
      · show divOk2 none false (st.container ++ [_]) = true
        rw [divOk2_append _ _ _ _ h1, hld2]
        show ((d == dateString (mkWrapper m).timestamp) && true) = true
        simp [mkWrapper, hd]
      · show st.lastMessageDate = lastDateAux none (st.container ++ [_])
        rw [hld, lastDateAux_append, hld2]
        show some d = some (dateString (mkWrapper m).timestamp)
        simp [mkWrapper, hd]
    · next hd =>
      refine ⟨?_, ?_⟩
      · show divOk2 none false (st.container ++ [_, _]) = true
        rw [divOk2_append _ _ _ _ h1, hld2]
        show ((d != dateString (mkWrapper m).timestamp) && true) = true
        simp [mkWrapper, bne_iff_ne, hd]
      · show some _ = lastDateAux none (st.container ++ [_, _])
        rw [lastDateAux_append, hld2]
        rfl

theorem chatInv_addMessage (st : ChatState) (m : Message)
    (hinv : chatInv st) : chatInv (addMessage st m false) := by
  rw [addMessage]
  split
  · split
    · split
      · obtain ⟨h1, h2⟩ := hinv
        refine ⟨?_, ?_⟩
        · show dividerInvariant (rewriteFirstTemp m.id st.container) = true
          rw [dividerInvariant] at h1 ⊢
          rw [divOk2_rewriteFirstTemp]
          exact h1
        · show st.lastMessageDate = lastDateAux none (rewriteFirstTemp m.id st.container)
          rw [lastDateAux_rewriteFirstTemp]
          exact h2
      · exact chatInv_addMessageRest st m hinv
    · exact chatInv_addMessageRest st m hinv
  · exact chatInv_addMessageRest st m hinv

theorem loadOlderStart_spec (h : Node → Nat) (base : Nat) (app app1 : AppState)
    (u : Option String) (p : LoadPending)
    (hstart : loadOlderStart h base app u = (app1, some p)) :
    app1.chat = app.chat
    ∧ app1.scroll.isLoadingMore = true
    ∧ p.savedScrollTop = app.scroll.scrollTop
    ∧ p.savedScrollHeight = extent h base app.chat.container := by
  unfold loadOlderStart at hstart
  by_cases hg : (app.scroll.isLoadingMore || !app.scroll.hasMoreMessages
      || falsyStr app.scroll.oldestMessageId) = true
  · rw [if_pos hg] at hstart
    simp at hstart
  · rw [if_neg hg] at hstart
    by_cases hu : falsyStr u = true
    · rw [if_pos hu] at hstart
      simp at hstart
    · rw [if_neg hu] at hstart
      have h1 : app1 = _ := (Prod.mk.injEq _ _ _ _ ▸ hstart).1.symm
      have h2 : some p = _ := (Prod.mk.injEq _ _ _ _ ▸ hstart).2.symm
      rw [Option.some.injEq] at h2
      subst h1
      subst h2
      exact ⟨rfl, rfl, rfl, rfl⟩

/-! ### Claim theorems -/

/-- C2 counterexample: one append of a message on day 1 followed by a
`prependMessages` page containing a single message on day 0 yields a
container with a divider before the very first message and no divider
between the two adjacent messages although their calendar dates differ —
so dividers do not appear exactly at date boundaries after an arbitrary
mix of appends and prepends. -/
theorem c2_counterexample :
    (prependMessages
      (addMessage initChat
        { id := "a1", role := "assistant", content := "hello",
          timestamp := 86400000 } false)
      [{ id := "a0", role := "assistant", content := "hi", timestamp := 0 }]).container
      = [Node.divider 0,
         Node.wrapper { messageId := "a0", role := "assistant", content := "hi",
                        contentText := "hi", timestamp := 0,
                        optimistic := false, failed := false },
         Node.wrapper { messageId := "a1", role := "assistant", content := "hello",
                        contentText := "hello", timestamp := 86400000,
                        optimistic := false, failed := false }]
    ∧ dividerInvariant (prependMessages
      (addMessage initChat
        { id := "a1", role := "assistant", content := "hello",
          timestamp := 86400000 } false)
      [{ id := "a0", role := "assistant", content := "hi", timestamp := 0 }]).container
      = false :=
  ⟨by decide, by decide⟩

/-- C2 (amended): for append-only insertion sequences starting from a
cleared list, `Chat.addMessage` maintains the divider invariant — a
divider sits between adjacent messages exactly when their calendar dates
differ and appears nowhere else, with `lastMessageDate` tracking the date
of the last appended message. Prepending breaks the property (see the
counterexample): `addMessage` with `prepend` inserts no divider at all,
and `prependMessages` always inserts a divider before the first message
of the page and never one at the boundary between the page and the
previously loaded list. -/
theorem c2_dividers_amended (msgs : List Message) :
    chatInv (appendMessages initChat msgs) := by
  have h : ∀ (l : List Message) (st : ChatState),
      chatInv st → chatInv (appendMessages st l) := by
    intro l
    induction l with
    | nil => intro st h; exact h
    | cons m ms ih =>
      intro st h
      exact ih _ (chatInv_addMessage st m h)
  exact h msgs initChat ⟨rfl, rfl⟩

/-- C3: sends are single-flight with guaranteed guard release — a
`sendMessage` call made while `isSending` is true returns with the state
completely unchanged and issues no request, and every completion path of
an outstanding send (response, thrown error) passes through the
`finally` block, which resets `isSending` to false. -/
theorem c3_single_flight :
    (∀ (st : ChatState) (text : Option String) (now : Nat),
      st.isSending = true → sendMessageStart st text now = (st, none))
    ∧ (∀ (st : ChatState) (p : SendPending) (o : SendOutcome),
      (sendMessageFinish st p o).isSending = false) := by
  constructor
  · intro st text now h
    simp [sendMessageStart, h]
  · intro st p o
    rfl

/-- C3 witness: a concrete blocked second call and a concrete failure
completion releasing the guard. -/
theorem c3_single_flight_witness :
    sendMessageStart { initChat with isSending := true } (some "x") 7
      = ({ initChat with isSending := true }, none)
    ∧ (sendMessageFinish initChat { tempId := "temp-7", content := "x" }
        (.failure "boom")).isSending = false :=
  ⟨c3_single_flight.1 { initChat with isSending := true } (some "x") 7 rfl,
   c3_single_flight.2 initChat { tempId := "temp-7", content := "x" } (.failure "boom")⟩

/-- C5: the reconnect budget — every close with budget remaining
schedules a reconnect after the fixed delay and increments the counter;
a close with the budget exhausted schedules nothing; once the budget is
exhausted, no sequence of close/error callbacks (no successful open)
ever schedules an automatic reconnect; and every successful open resets
the counter to zero. -/
theorem c5_reconnect_budget :
    (∀ s : WSState, s.reconnectAttempts < s.maxReconnectAttempts →
      wsOnClose s = ({ s with
          pingActive := false,
          reconnectAttempts := s.reconnectAttempts + 1 },
        some reconnectInterval))
    ∧ (∀ s : WSState, s.maxReconnectAttempts ≤ s.reconnectAttempts →
      wsOnClose s = ({ s with pingActive := false }, none))
    ∧ (∀ (s : WSState) (evs : List WSEvent),
      s.maxReconnectAttempts ≤ s.reconnectAttempts →
      (∀ e ∈ evs, e ≠ WSEvent.onOpen) →
      (wsRun s evs).2 = 0)
    ∧ (∀ s : WSState, (wsOnOpen s).reconnectAttempts = 0) := by
  refine ⟨?_, ?_, ?_, ?_⟩
  · intro s h
    unfold wsOnClose
    rw [if_pos h]
  · intro s h
    unfold wsOnClose
    rw [if_neg (by simp only [not_lt]; omega)]
  · intro s evs
    induction evs generalizing s with
    | nil => intro h hno; rfl
    | cons e rest ih =>
      intro h hno
      cases e with
      | onOpen => exact absurd rfl (hno _ (by simp))
      | onClose =>
        have hstep : wsOnClose s = ({ s with pingActive := false }, none) := by
          unfold wsOnClose
          rw [if_neg (by simp only [not_lt]; omega)]
        have hrest := ih { s with pingActive := false } h
          (fun e2 he2 => hno e2 (List.mem_cons_of_mem _ he2))
        simp only [wsRun, wsStep, hstep]
        simpa using hrest
      | onError =>
        have hrest := ih s h
          (fun e2 he2 => hno e2 (List.mem_cons_of_mem _ he2))
        simp only [wsRun, wsStep, wsOnError]
        simpa using hrest
  · intro s
    rfl

/-- C5 witness: concrete instances of every part of the reconnect-budget
theorem. -/
theorem c5_reconnect_budget_witness :
    wsOnClose { reconnectAttempts := 2, maxReconnectAttempts := 5, pingActive := true }
      = ({ reconnectAttempts := 3, maxReconnectAttempts := 5, pingActive := false },
         some reconnectInterval)
    ∧ wsOnClose { reconnectAttempts := 5, maxReconnectAttempts := 5, pingActive := true }
      = ({ reconnectAttempts := 5, maxReconnectAttempts := 5, pingActive := false }, none)
    ∧ (wsRun { reconnectAttempts := 5, maxReconnectAttempts := 5, pingActive := false }
        [WSEvent.onClose, WSEvent.onError, WSEvent.onClose]).2 = 0
    ∧ (wsOnOpen { reconnectAttempts := 4, maxReconnectAttempts := 5,
                  pingActive := false }).reconnectAttempts = 0 :=
  ⟨c5_reconnect_budget.1 _ (by decide),
   c5_reconnect_budget.2.1 _ (by decide),
   c5_reconnect_budget.2.2.1 _ _ (by decide) (by decide),
   c5_reconnect_budget.2.2.2 _⟩

/-- C9 counterexample: passing the whitespace-only string as a direct
`text` argument (as a quick-reply option would) is accepted although its
trimmed form is empty — a provisional message with that content is
created and a request issued, so the list is not unchanged. -/
theorem c9_counterexample :
    jsTrim " " = ""
    ∧ (sendMessageStart { initChat with inputValue := "" } (some " ") 0).2
        = some { tempId := "temp-0", content := " " }
    ∧ wrapperCount (sendMessageStart { initChat with inputValue := "" }
        (some " ") 0).1.container = 1 :=
  ⟨by decide, by decide, by decide⟩

/-- C9 (amended): `sendMessage` rejects — returning the state unchanged
with no request — exactly when the effective content
(`text || input.trim()`) is empty; content from the input field is
trimmed first, but a non-empty direct `text` argument is used untrimmed
and is always accepted when no send is in flight, even when it is
whitespace-only. -/
theorem c9_empty_rejection_amended :
    (∀ (st : ChatState) (text : Option String) (now : Nat),
      effectiveContent st text = "" → sendMessageStart st text now = (st, none))
    ∧ (∀ (st : ChatState) (t : String) (now : Nat),
      t ≠ "" → st.isSending = false →
      (sendMessageStart st (some t) now).2
        = some { tempId := "temp-" ++ toString now, content := t }) := by
  constructor
  · intro st text now h
    simp [sendMessageStart, h]
  · intro st t now ht hs
    have he : effectiveContent st (some t) = t := if_neg ht
    have hb : (t == "") = false := by simpa using ht
    simp [sendMessageStart, he, hb, hs]

/-- C9 witness: a concrete rejected empty submit and a concrete accepted
untrimmed direct-text submit. -/
theorem c9_empty_rejection_amended_witness :
    sendMessageStart { initChat with inputValue := "  " } none 4
      = ({ initChat with inputValue := "  " }, none)
    ∧ (sendMessageStart initChat (some "ok") 4).2
        = some { tempId := "temp-" ++ toString 4, content := "ok" } :=
  ⟨c9_empty_rejection_amended.1 { initChat with inputValue := "  " } none 4 (by decide),
   c9_empty_rejection_amended.2 initChat "ok" 4 (by decide) rfl⟩

/-- C10: provisional identities are clock-derived — every accepted
`sendMessage` call creates its provisional entry as the last container
node, a wrapper built from the message with id `temp-` followed by the
millisecond clock value, role `user` and timestamp `now`; two accepted
calls in the same millisecond therefore produce identical provisional
ids; and the reconciliation path selects its candidate solely by the
`temp-` prefix of the id. -/
theorem c10_temp_ids :
    (∀ (st : ChatState) (text : Option String) (now : Nat)
       (st1 : ChatState) (p : SendPending),
      sendMessageStart st text now = (st1, some p) →
      p.tempId = "temp-" ++ toString now
      ∧ st1.container.getLast? = some (.wrapper (mkWrapper
          { id := "temp-" ++ toString now, role := "user",
            content := effectiveContent st text, timestamp := now })))
    ∧ (∀ (st st2 : ChatState) (text text2 : Option String) (now : Nat)
       (st1 st3 : ChatState) (p p2 : SendPending),
      sendMessageStart st text now = (st1, some p) →
      sendMessageStart st2 text2 now = (st3, some p2) →
      p.tempId = p2.tempId)
    ∧ (∀ (l : List Node) (w : Wrapper),
      firstTemp l = some w → startsWithStr "temp-" w.messageId = true) := by
  refine ⟨?_, ?_, ?_⟩
  · intro st text now st1 p h
    obtain ⟨hp, _, _, hc⟩ := sendMessageStart_spec st text now st1 p h
    refine ⟨by rw [hp], ?_⟩
    rcases hc with hc | hc
    · rw [hc, getLast?_append_singleton]
    · rw [hc, show st.container ++ [Node.divider now,
            Node.wrapper (mkWrapper
              { id := "temp-" ++ toString now, role := "user",
                content := effectiveContent st text, timestamp := now })]
          = (st.container ++ [Node.divider now]) ++
            [Node.wrapper (mkWrapper
              { id := "temp-" ++ toString now, role := "user",
                content := effectiveContent st text, timestamp := now })] by
          simp]
      rw [getLast?_append_singleton]
  · intro st st2 text text2 now st1 st3 p p2 h h2
    obtain ⟨hp, _, _, _⟩ := sendMessageStart_spec st text now st1 p h
    obtain ⟨hp2, _, _, _⟩ := sendMessageStart_spec st2 text2 now st3 p2 h2
    rw [hp, hp2]
  · exact firstTemp_startsWith

/-- C10 witness: concrete instances of the three parts. -/
theorem c10_temp_ids_witness :
    (({ tempId := "temp-3", content := "yo" } : SendPending).tempId
        = "temp-" ++ toString 3
      ∧ (sendMessageStart { initChat with inputValue := "yo" } none 3).1.container.getLast?
          = some (.wrapper (mkWrapper { id := "temp-" ++ toString 3, role := "user",
                                        content := effectiveContent { initChat with inputValue := "yo" } none,
                                        timestamp := 3 })))
    ∧ ({ tempId := "temp-3", content := "yo" } : SendPending).tempId
        = ({ tempId := "temp-3", content := "hey" } : SendPending).tempId
    ∧ startsWithStr "temp-"
        ({ messageId := "temp-9", role := "user", content := "q", contentText := "q",
           timestamp := 9, optimistic := true, failed := false } : Wrapper).messageId = true :=
  ⟨c10_temp_ids.1 { initChat with inputValue := "yo" } none 3
      (sendMessageStart { initChat with inputValue := "yo" } none 3).1
      { tempId := "temp-3", content := "yo" } (by decide),
   c10_temp_ids.2.1 { initChat with inputValue := "yo" } initChat none (some "hey") 3
      (sendMessageStart { initChat with inputValue := "yo" } none 3).1
      (sendMessageStart initChat (some "hey") 3).1
      { tempId := "temp-3", content := "yo" }
      { tempId := "temp-3", content := "hey" } (by decide) (by decide),
   c10_temp_ids.2.2
     [Node.wrapper { messageId := "temp-9", role := "user", content := "q",
                     contentText := "q", timestamp := 9, optimistic := true,
                     failed := false }]
     { messageId := "temp-9", role := "user", content := "q", contentText := "q",
       timestamp := 9, optimistic := true, failed := false } (by decide)⟩

/-- C6: pagination is single-flight — `loadOlderMessages` is a no-op
(state unchanged, no fetch issued) whenever `isLoadingMore` is set,
`hasMoreMessages` is cleared, or the cursor is unset; and once a call
has issued a fetch, any further call made before that fetch resolves
issues no fetch, so two overlapping calls produce exactly one fetch. -/
theorem c6_pagination_single_flight :
    (∀ (h : Node → Nat) (base : Nat) (app : AppState) (u : Option String),
      (app.scroll.isLoadingMore = true ∨ app.scroll.hasMoreMessages = false ∨
        app.scroll.oldestMessageId = none) →
      loadOlderStart h base app u = (app, none))
    ∧ (∀ (h : Node → Nat) (base : Nat) (app app1 : AppState)
        (u u2 : Option String) (p : LoadPending),
      loadOlderStart h base app u = (app1, some p) →
      (loadOlderStart h base app1 u2).2 = none) := by
  constructor
  · intro h base app u hg
    rcases hg with hg | hg | hg
    · simp [loadOlderStart, hg]
    · simp [loadOlderStart, hg]
    · simp [loadOlderStart, hg, falsyStr]
  · intro h base app app1 u u2 p hstart
    obtain ⟨_, hl, _, _⟩ := loadOlderStart_spec h base app app1 u p hstart
    simp [loadOlderStart, hl]

/-- C6 witness: a concrete rejected call while loading, and a concrete
pair of overlapping calls of which only the first issues a fetch. -/
theorem c6_pagination_single_flight_witness :
    loadOlderStart (fun _ => 1) 0
      ⟨initChat, { isLoadingMore := true, hasMoreMessages := true,
                   oldestMessageId := some "m1", scrollTop := 0,
                   loadingIndicator := false }⟩ (some "u")
      = (⟨initChat, { isLoadingMore := true, hasMoreMessages := true,
                      oldestMessageId := some "m1", scrollTop := 0,
                      loadingIndicator := false }⟩, none)
    ∧ (loadOlderStart (fun _ => 1) 0
        (loadOlderStart (fun _ => 1) 0
          ⟨initChat, { isLoadingMore := false, hasMoreMessages := true,
                       oldestMessageId := some "m1", scrollTop := 0,
                       loadingIndicator := false }⟩ (some "u")).1
        (some "u")).2 = none :=
  ⟨c6_pagination_single_flight.1 (fun _ => 1) 0 _ (some "u") (Or.inl rfl),
   c6_pagination_single_flight.2 (fun _ => 1) 0
     ⟨initChat, { isLoadingMore := false, hasMoreMessages := true,
                  oldestMessageId := some "m1", scrollTop := 0,
                  loadingIndicator := false }⟩
     (loadOlderStart (fun _ => 1) 0
       ⟨initChat, { isLoadingMore := false, hasMoreMessages := true,
                    oldestMessageId := some "m1", scrollTop := 0,
                    loadingIndicator := false }⟩ (some "u")).1
     (some "u") (some "u")
     { req := { userId := "u", beforeId := "m1", limit := 20 },
       savedScrollHeight := 0, savedScrollTop := 0 } (by decide)⟩

/-- C4: anchor preservation across prepend — for every call that issues
a fetch and merges a non-empty page, the extent and offset saved at the
suspension point are exactly the pre-call extent and offset (nothing
else runs in between in this sequential model), the restored offset is
the saved offset plus the growth in extent, and that growth is exactly
the rendered extent of the prepended fragment — for any page size and
any height assignment, date dividers included. -/
theorem c4_anchor_preservation (h : Node → Nat) (base : Nat)
    (app app1 : AppState) (u : Option String) (p : LoadPending)
    (r : PageResponse) (m0 : Message) (ms : List Message)
    (hstart : loadOlderStart h base app u = (app1, some p))
    (hmsgs : r.messages = m0 :: ms) :
    (loadOlderFinish h base app1 p (.success r)).scroll.scrollTop
        = p.savedScrollTop
          + (extent h base (loadOlderFinish h base app1 p (.success r)).chat.container
             - p.savedScrollHeight)
    ∧ p.savedScrollTop = app.scroll.scrollTop
    ∧ p.savedScrollHeight = extent h base app.chat.container
    ∧ (loadOlderFinish h base app1 p (.success r)).scroll.scrollTop
        = app.scroll.scrollTop
          + ((buildFragment none (sortByTs r.messages)).map h).sum := by
  obtain ⟨hchat, _, htop, hheight⟩ := loadOlderStart_spec h base app app1 u p hstart
  refine ⟨?_, htop, hheight, ?_⟩
  · simp only [loadOlderFinish, hmsgs]
  · simp only [loadOlderFinish, hmsgs]
    rw [htop, hheight, hchat]
    show app.scroll.scrollTop
        + (extent h base (prependMessages app.chat (m0 :: ms)).container
           - extent h base app.chat.container)
      = app.scroll.scrollTop
          + ((buildFragment none (sortByTs (m0 :: ms))).map h).sum
    unfold prependMessages extent
    simp only [List.map_append, List.sum_append]
    omega

/-- C4 witness: a concrete one-page prepend with a divider in the
fragment; the offset grows by exactly the fragment extent. -/
theorem c4_anchor_preservation_witness :
    (loadOlderFinish (fun _ => 2) 1
      (loadOlderStart (fun _ => 2) 1
        ⟨initChat, { isLoadingMore := false, hasMoreMessages := true,
                     oldestMessageId := some "x", scrollTop := 50,
                     loadingIndicator := false }⟩ (some "u")).1
      { req := { userId := "u", beforeId := "x", limit := 20 },
        savedScrollHeight := 1, savedScrollTop := 50 }
      (.success { messages := [{ id := "o1", role := "assistant",
                                 content := "old", timestamp := 0 }],
                  has_more := true, next_cursor := none })).scroll.scrollTop
      = 50 + (extent (fun _ => 2) 1
          (loadOlderFinish (fun _ => 2) 1
            (loadOlderStart (fun _ => 2) 1
              ⟨initChat, { isLoadingMore := false, hasMoreMessages := true,
                           oldestMessageId := some "x", scrollTop := 50,
                           loadingIndicator := false }⟩ (some "u")).1
            { req := { userId := "u", beforeId := "x", limit := 20 },
              savedScrollHeight := 1, savedScrollTop := 50 }
            (.success { messages := [{ id := "o1", role := "assistant",
                                       content := "old", timestamp := 0 }],
                        has_more := true, next_cursor := none })).chat.container - 1)
    ∧ (50 : Nat) = 50
    ∧ (1 : Nat) = extent (fun _ => 2) 1 initChat.container
    ∧ (loadOlderFinish (fun _ => 2) 1
        (loadOlderStart (fun _ => 2) 1
          ⟨initChat, { isLoadingMore := false, hasMoreMessages := true,
                       oldestMessageId := some "x", scrollTop := 50,
                       loadingIndicator := false }⟩ (some "u")).1
        { req := { userId := "u", beforeId := "x", limit := 20 },
          savedScrollHeight := 1, savedScrollTop := 50 }
        (.success { messages := [{ id := "o1", role := "assistant",
                                   content := "old", timestamp := 0 }],
                    has_more := true, next_cursor := none })).scroll.scrollTop
        = 50 + ((buildFragment none (sortByTs
            [{ id := "o1", role := "assistant",
               content := "old", timestamp := 0 }])).map (fun _ => 2)).sum :=
  c4_anchor_preservation (fun _ => 2) 1
    ⟨initChat, { isLoadingMore := false, hasMoreMessages := true,
                 oldestMessageId := some "x", scrollTop := 50,
                 loadingIndicator := false }⟩
    (loadOlderStart (fun _ => 2) 1
      ⟨initChat, { isLoadingMore := false, hasMoreMessages := true,
                   oldestMessageId := some "x", scrollTop := 50,
                   loadingIndicator := false }⟩ (some "u")).1
    (some "u")
    { req := { userId := "u", beforeId := "x", limit := 20 },
      savedScrollHeight := 1, savedScrollTop := 50 }
    { messages := [{ id := "o1", role := "assistant",
                     content := "old", timestamp := 0 }],
      has_more := true, next_cursor := none }
    { id := "o1", role := "assistant", content := "old", timestamp := 0 }
    [] (by decide) rfl

/-- C8 counterexample: on a non-empty page whose `next_cursor` is
present but the empty string, the code recomputes the cursor from the
first returned message id — the truthiness check
`next_cursor || messages[0].id` does not honour a present cursor, so
the claim's "next_cursor when present" fails. -/
theorem c8_counterexample :
    (loadOlderFinish (fun _ => 1) 0
      ⟨initChat, { isLoadingMore := true, hasMoreMessages := true,
                   oldestMessageId := some "m9", scrollTop := 0,
                   loadingIndicator := true }⟩
      { req := { userId := "u", beforeId := "m9", limit := 20 },
        savedScrollHeight := 0, savedScrollTop := 0 }
      (.success { messages := [{ id := "old0", role := "assistant",
                                 content := "x", timestamp := 0 }],
                  has_more := true, next_cursor := some "" })).scroll.oldestMessageId
      = some "old0"
    ∧ ((some "" : Option String).isSome = true
       ∧ ¬ (loadOlderFinish (fun _ => 1) 0
          ⟨initChat, { isLoadingMore := true, hasMoreMessages := true,
                       oldestMessageId := some "m9", scrollTop := 0,
                       loadingIndicator := true }⟩
          { req := { userId := "u", beforeId := "m9", limit := 20 },
            savedScrollHeight := 0, savedScrollTop := 0 }
          (.success { messages := [{ id := "old0", role := "assistant",
                                     content := "x", timestamp := 0 }],
                      has_more := true, next_cursor := some "" })).scroll.oldestMessageId
          = some "") :=
  ⟨by decide, by decide, by decide⟩

/-- C8 (amended): fetch postconditions — an empty page only clears
`hasMoreMessages` (no error, no other state change beyond the `finally`
resets); on a non-empty page the cursor becomes the server cursor when
it is present and non-empty, and falls back to the first returned
message id when it is absent or empty; `hasMoreMessages` is taken from
the response; and `isLoadingMore` is cleared in every outcome, error
included. -/
theorem c8_fetch_postconditions_amended :
    (∀ (h : Node → Nat) (base : Nat) (app : AppState) (p : LoadPending)
       (hm : Bool) (nc : Option String),
      loadOlderFinish h base app p
          (.success { messages := [], has_more := hm, next_cursor := nc })
        = { app with scroll := { app.scroll with
              hasMoreMessages := false, isLoadingMore := false,
              loadingIndicator := false } })
    ∧ (∀ (h : Node → Nat) (base : Nat) (app : AppState) (p : LoadPending)
        (r : PageResponse) (m0 : Message) (ms : List Message),
      r.messages = m0 :: ms →
      (r.next_cursor = none ∨ r.next_cursor = some "") →
      (loadOlderFinish h base app p (.success r)).scroll.oldestMessageId
        = some m0.id)
    ∧ (∀ (h : Node → Nat) (base : Nat) (app : AppState) (p : LoadPending)
        (r : PageResponse) (m0 : Message) (ms : List Message) (c : String),
      r.messages = m0 :: ms → r.next_cursor = some c → c ≠ "" →
      (loadOlderFinish h base app p (.success r)).scroll.oldestMessageId
        = some c)
    ∧ (∀ (h : Node → Nat) (base : Nat) (app : AppState) (p : LoadPending)
        (r : PageResponse) (m0 : Message) (ms : List Message),
      r.messages = m0 :: ms →
      (loadOlderFinish h base app p (.success r)).scroll.hasMoreMessages
        = r.has_more)
    ∧ (∀ (h : Node → Nat) (base : Nat) (app : AppState) (p : LoadPending)
        (o : FetchOutcome),
      (loadOlderFinish h base app p o).scroll.isLoadingMore = false) := by
  refine ⟨?_, ?_, ?_, ?_, ?_⟩
  · intro h base app p hm nc
    rfl
  · intro h base app p r m0 ms hmsgs hnc
    rcases hnc with hnc | hnc <;> simp [loadOlderFinish, hmsgs, hnc]
  · intro h base app p r m0 ms c hmsgs hnc hne
    simp [loadOlderFinish, hmsgs, hnc, hne]
  · intro h base app p r m0 ms hmsgs
    simp [loadOlderFinish, hmsgs]
  · intro h base app p o
    cases o with
    | success r =>
      obtain ⟨msgs, hm, nc⟩ := r
      cases msgs <;> rfl
    | failure e => rfl

/-- C8 witness: concrete instances of every part of the amended fetch
postconditions. -/
theorem c8_fetch_postconditions_amended_witness :
    loadOlderFinish (fun _ => 1) 0
        ⟨initChat, { isLoadingMore := true, hasMoreMessages := true,
                     oldestMessageId := some "m9", scrollTop := 0,
                     loadingIndicator := true }⟩
        { req := { userId := "u", beforeId := "m9", limit := 20 },
          savedScrollHeight := 0, savedScrollTop := 0 }
        (.success { messages := [], has_more := true, next_cursor := none })
      = ⟨initChat, { isLoadingMore := false, hasMoreMessages := false,
                     oldestMessageId := some "m9", scrollTop := 0,
                     loadingIndicator := false }⟩
    ∧ (loadOlderFinish (fun _ => 1) 0
        ⟨initChat, { isLoadingMore := true, hasMoreMessages := true,
                     oldestMessageId := some "m9", scrollTop := 0,
                     loadingIndicator := true }⟩
        { req := { userId := "u", beforeId := "m9", limit := 20 },
          savedScrollHeight := 0, savedScrollTop := 0 }
        (.success { messages := [{ id := "old0", role := "assistant",
                                   content := "x", timestamp := 0 }],
                    has_more := true, next_cursor := none })).scroll.oldestMessageId
      = some "old0"
    ∧ (loadOlderFinish (fun _ => 1) 0
        ⟨initChat, { isLoadingMore := true, hasMoreMessages := true,
                     oldestMessageId := some "m9", scrollTop := 0,
                     loadingIndicator := true }⟩
        { req := { userId := "u", beforeId := "m9", limit := 20 },
          savedScrollHeight := 0, savedScrollTop := 0 }
        (.success { messages := [{ id := "old0", role := "assistant",
                                   content := "x", timestamp := 0 }],
                    has_more := true, next_cursor := some "cur7" })).scroll.oldestMessageId
      = some "cur7"
    ∧ (loadOlderFinish (fun _ => 1) 0
        ⟨initChat, { isLoadingMore := true, hasMoreMessages := true,
                     oldestMessageId := some "m9", scrollTop := 0,
                     loadingIndicator := true }⟩
        { req := { userId := "u", beforeId := "m9", limit := 20 },
          savedScrollHeight := 0, savedScrollTop := 0 }
        (.success { messages := [{ id := "old0", role := "assistant",
                                   content := "x", timestamp := 0 }],
                    has_more := false, next_cursor := none })).scroll.hasMoreMessages
      = ({ messages := [{ id := "old0", role := "assistant",
                          content := "x", timestamp := 0 }],
           has_more := false, next_cursor := none } : PageResponse).has_more
    ∧ (loadOlderFinish (fun _ => 1) 0
        ⟨initChat, { isLoadingMore := true, hasMoreMessages := true,
                     oldestMessageId := some "m9", scrollTop := 0,
                     loadingIndicator := true }⟩
        { req := { userId := "u", beforeId := "m9", limit := 20 },
          savedScrollHeight := 0, savedScrollTop := 0 }
        (.failure "net")).scroll.isLoadingMore = false :=
  ⟨c8_fetch_postconditions_amended.1 (fun _ => 1) 0 _ _ true none,
   c8_fetch_postconditions_amended.2.1 (fun _ => 1) 0 _ _ _
     { id := "old0", role := "assistant", content := "x", timestamp := 0 } []
     rfl (Or.inl rfl),
   c8_fetch_postconditions_amended.2.2.1 (fun _ => 1) 0 _ _ _
     { id := "old0", role := "assistant", content := "x", timestamp := 0 } []
     "cur7" rfl rfl (by decide),
   c8_fetch_postconditions_amended.2.2.2.1 (fun _ => 1) 0 _ _ _
     { id := "old0", role := "assistant", content := "x", timestamp := 0 } []
     rfl,
   c8_fetch_postconditions_amended.2.2.2.2 (fun _ => 1) 0 _ _ _⟩

/-- C1 counterexample: `submit` of the content with emphasis markup
renders the provisional bubble with the markup consumed, so its
displayed text differs from the raw content; the reconciling confirmed
user message with identical content then fails the displayed-text
comparison and is appended as a second entry — two list entries for one
logical message although a provisional entry with identical content was
present. -/
theorem c1_counterexample :
    hasTempWithContent "*hi*"
      (sendMessageStart { initChat with inputValue := "*hi*" } none 1000).1.container
      = true
    ∧ startsWithStr "temp-" "srv-1" = false
    ∧ contentCount "*hi*"
        (addMessage (sendMessageStart { initChat with inputValue := "*hi*" } none 1000).1
          { id := "srv-1", role := "user", content := "*hi*", timestamp := 2000 }
          false).container = 2 :=
  ⟨by decide, by decide, by decide⟩

/-- C1 (amended): reconciliation compares the incoming content against
the displayed text of the first provisional wrapper only — when the
first provisional wrapper's displayed text equals the incoming confirmed
user message's content, that wrapper is rewritten in place (id replaced,
`optimistic` dropped) and no entry is added or removed; consequently,
for a `submit(c)` from a cleared list followed by a reconciliation
response with content `c`, the list holds exactly one entry for that
message provided `c` renders to itself (no emphasis markup, newlines or
HTML-significant characters consumed by the pipeline). -/
theorem c1_reconciliation_amended :
    (∀ (st : ChatState) (m : Message) (w : Wrapper),
      m.role = "user" →
      startsWithStr "temp-" m.id = false →
      firstTemp st.container = some w →
      w.contentText = m.content →
      (addMessage st m false).container = rewriteFirstTemp m.id st.container
      ∧ (addMessage st m false).container.length = st.container.length
      ∧ wrapperCount (addMessage st m false).container = wrapperCount st.container)
    ∧ (∀ (c i : String) (now t2 : Nat),
      renderText c = c → jsTrim c = c → c ≠ "" →
      startsWithStr "temp-" i = false →
      contentCount c (addMessage
          (sendMessageStart { initChat with inputValue := c } none now).1
          { id := i, role := "user", content := c, timestamp := t2 } false).container = 1
      ∧ wrapperCount (addMessage
          (sendMessageStart { initChat with inputValue := c } none now).1
          { id := i, role := "user", content := c, timestamp := t2 } false).container = 1) := by
  have key : ∀ (st : ChatState) (m : Message) (w : Wrapper),
      m.role = "user" → startsWithStr "temp-" m.id = false →
      firstTemp st.container = some w → w.contentText = m.content →
      (addMessage st m false).container = rewriteFirstTemp m.id st.container := by
    intro st m w hrole hid hft hct
    have hcond : ((m.role == "user") && !(startsWithStr "temp-" m.id)) = true := by
      rw [hrole, hid]
      rfl
    unfold addMessage
    rw [if_pos hcond]
    simp only [hft]
    rw [if_pos hct]
  constructor
  · intro st m w hrole hid hft hct
    have hc := key st m w hrole hid hft hct
    exact ⟨hc, by rw [hc, rewriteFirstTemp_length],
           by rw [hc, wrapperCount_rewriteFirstTemp]⟩
  · intro c i now t2 hr htrim hne hi
    have hb : (c == "") = false := by simpa using hne
    have htw := startsWithStr_append "temp-" (toString now)
    have he : effectiveContent { initChat with inputValue := c } none = c := htrim
    have hcont : (sendMessageStart { initChat with inputValue := c } none now).1.container
        = [Node.wrapper (mkWrapper
            { id := "temp-" ++ toString now, role := "user",
              content := c, timestamp := now })] := by
      simp [sendMessageStart, effectiveContent, htrim, hne, addMessage, htw,
            addMessageRest, initChat, mkWrapper]
    have hft : firstTemp (sendMessageStart { initChat with inputValue := c } none now).1.container
        = some (mkWrapper
            { id := "temp-" ++ toString now, role := "user",
              content := c, timestamp := now }) := by
      rw [hcont]
      simp [firstTemp, mkWrapper, htw]
    have hct : (mkWrapper { id := "temp-" ++ toString now, role := "user",
                            content := c, timestamp := now } : Wrapper).contentText
        = ({ id := i, role := "user", content := c, timestamp := t2 } : Message).content := by
      show renderText c = c
      exact hr
    have hc := key (sendMessageStart { initChat with inputValue := c } none now).1
      { id := i, role := "user", content := c, timestamp := t2 }
      (mkWrapper { id := "temp-" ++ toString now, role := "user",
                   content := c, timestamp := now }) rfl hi hft hct
    refine ⟨?_, ?_⟩
    · rw [hc, hcont]
      simp [rewriteFirstTemp, mkWrapper, htw, contentCount, List.filter]
    · rw [hc, hcont]
      simp [rewriteFirstTemp, mkWrapper, htw, wrapperCount, List.filter]

/-- C1 witness: concrete instances of both parts of the amended
reconciliation claim. -/
theorem c1_reconciliation_amended_witness :
    ((addMessage { initChat with
          container := [Node.wrapper { messageId := "temp-5", role := "user",
                                       content := "hi", contentText := "hi",
                                       timestamp := 5, optimistic := true,
                                       failed := false }],
          lastMessageDate := some 0 }
        { id := "m-1", role := "user", content := "hi", timestamp := 6 }
        false).container
      = rewriteFirstTemp "m-1" ({ initChat with
          container := [Node.wrapper { messageId := "temp-5", role := "user",
                                       content := "hi", contentText := "hi",
                                       timestamp := 5, optimistic := true,
                                       failed := false }],
          lastMessageDate := some 0 } : ChatState).container
      ∧ (addMessage { initChat with
          container := [Node.wrapper { messageId := "temp-5", role := "user",
                                       content := "hi", contentText := "hi",
                                       timestamp := 5, optimistic := true,
                                       failed := false }],
          lastMessageDate := some 0 }
        { id := "m-1", role := "user", content := "hi", timestamp := 6 }
        false).container.length
      = ({ initChat with
          container := [Node.wrapper { messageId := "temp-5", role := "user",
                                       content := "hi", contentText := "hi",
                                       timestamp := 5, optimistic := true,
                                       failed := false }],
          lastMessageDate := some 0 } : ChatState).container.length
      ∧ wrapperCount (addMessage { initChat with
          container := [Node.wrapper { messageId := "temp-5", role := "user",
                                       content := "hi", contentText := "hi",
                                       timestamp := 5, optimistic := true,
                                       failed := false }],
          lastMessageDate := some 0 }
        { id := "m-1", role := "user", content := "hi", timestamp := 6 }
        false).container
      = wrapperCount ({ initChat with
          container := [Node.wrapper { messageId := "temp-5", role := "user",
                                       content := "hi", contentText := "hi",
                                       timestamp := 5, optimistic := true,
                                       failed := false }],
          lastMessageDate := some 0 } : ChatState).container)
    ∧ (contentCount "hi" (addMessage
          (sendMessageStart { initChat with inputValue := "hi" } none 5).1
          { id := "m-1", role := "user", content := "hi", timestamp := 6 }
          false).container = 1
      ∧ wrapperCount (addMessage
          (sendMessageStart { initChat with inputValue := "hi" } none 5).1
          { id := "m-1", role := "user", content := "hi", timestamp := 6 }
          false).container = 1) :=
  ⟨c1_reconciliation_amended.1 { initChat with
      container := [Node.wrapper { messageId := "temp-5", role := "user",
                                   content := "hi", contentText := "hi",
                                   timestamp := 5, optimistic := true,
                                   failed := false }],
      lastMessageDate := some 0 }
    { id := "m-1", role := "user", content := "hi", timestamp := 6 }
    { messageId := "temp-5", role := "user", content := "hi", contentText := "hi",
      timestamp := 5, optimistic := true, failed := false }
    rfl (by decide) (by decide) rfl,
   c1_reconciliation_amended.2 "hi" "m-1" 5 6 (by decide) (by decide)
     (by decide) (by decide)⟩

/-- C7 counterexample: two sends accepted in the same millisecond share
the clock-derived provisional id; when the second send fails, the
`failed` class is applied to the first wrapper carrying that id — the
entry of the earlier send — while the entry created by the failing call
itself is left unflagged. -/
theorem c7_counterexample :
    (let r1 := sendMessageStart { initChat with inputValue := "a" } none 1000
     let st2 := sendMessageFinish r1.1
       (r1.2.getD { tempId := "", content := "" }) (.failure "network error")
     let r2 := sendMessageStart { st2 with inputValue := "b" } none 1000
     let st5 := sendMessageFinish r2.1
       (r2.2.getD { tempId := "", content := "" }) (.failure "network error")
     r1.2 = some { tempId := "temp-1000", content := "a" }
     ∧ r2.2 = some { tempId := "temp-1000", content := "b" }
     ∧ contentCount "b" st5.container = 1
     ∧ failedCountWithContent "b" st5.container = 0
     ∧ failedCountWithContent "a" st5.container = 1) := by
  decide

/-- C7 (amended): when a send whose provisional id collides with no
existing list entry fails, the provisional entry created by that call
remains the last container entry, flagged `failed` in place; no entry is
removed; the error message (or the fallback text) is surfaced as a
toast; and the in-flight guard is released. Without the freshness condition
the flag lands on the first wrapper carrying the clock-derived id, which
an earlier same-millisecond send may own (see the counterexample). -/
theorem c7_failure_flagging_amended
    (st st1 : ChatState) (text : Option String) (now : Nat) (p : SendPending) (e : String)
    (hfresh : hasWrapperId ("temp-" ++ toString now) st.container = false)
    (hstart : sendMessageStart st text now = (st1, some p)) :
    (sendMessageFinish st1 p (.failure e)).container.getLast?
      = some (.wrapper { mkWrapper
          { id := "temp-" ++ toString now, role := "user",
            content := effectiveContent st text, timestamp := now } with
          failed := true })
    ∧ (sendMessageFinish st1 p (.failure e)).container.length
        = st1.container.length
    ∧ (sendMessageFinish st1 p (.failure e)).toasts
        = st1.toasts ++ [if e = "" then "Failed to send message" else e]
    ∧ (sendMessageFinish st1 p (.failure e)).isSending = false := by
  obtain ⟨hp, _, _, hc⟩ := sendMessageStart_spec st text now st1 p hstart
  have hid : p.tempId = "temp-" ++ toString now := by rw [hp]
  have hcont : (sendMessageFinish st1 p (.failure e)).container
      = markFailedFirst p.tempId st1.container := rfl
  refine ⟨?_, ?_, rfl, rfl⟩
  · rw [hcont, hid]
    rcases hc with hc | hc
    · rw [hc, markFailedFirst_append_fresh _ _ _ hfresh]
      rw [show markFailedFirst ("temp-" ++ toString now)
            [Node.wrapper (mkWrapper
              { id := "temp-" ++ toString now, role := "user",
                content := effectiveContent st text, timestamp := now })]
          = [Node.wrapper { mkWrapper
              { id := "temp-" ++ toString now, role := "user",
                content := effectiveContent st text, timestamp := now } with
              failed := true }] from by simp [markFailedFirst, mkWrapper]]
      rw [getLast?_append_singleton]
    · rw [hc, markFailedFirst_append_fresh _ _ _ hfresh]
      rw [show markFailedFirst ("temp-" ++ toString now)
            [Node.divider now,
             Node.wrapper (mkWrapper
              { id := "temp-" ++ toString now, role := "user",
                content := effectiveContent st text, timestamp := now })]
          = [Node.divider now,
             Node.wrapper { mkWrapper
              { id := "temp-" ++ toString now, role := "user",
                content := effectiveContent st text, timestamp := now } with
              failed := true }] from by simp [markFailedFirst, mkWrapper]]
      rw [show st.container ++ [Node.divider now,
            Node.wrapper { mkWrapper
              { id := "temp-" ++ toString now, role := "user",
                content := effectiveContent st text, timestamp := now } with
              failed := true }]
          = (st.container ++ [Node.divider now]) ++
            [Node.wrapper { mkWrapper
              { id := "temp-" ++ toString now, role := "user",
                content := effectiveContent st text, timestamp := now } with
              failed := true }] from by simp]
      rw [getLast?_append_singleton]
  · rw [hcont, hid, markFailedFirst_length]

/-- C7 witness: a concrete failed send whose provisional entry survives,
flagged, with the toast recorded and the guard released. -/
theorem c7_failure_flagging_amended_witness :
    (sendMessageFinish
        (sendMessageStart { initChat with inputValue := "a" } none 1000).1
        { tempId := "temp-1000", content := "a" } (.failure "err")).container.getLast?
      = some (.wrapper { mkWrapper
          { id := "temp-" ++ toString 1000, role := "user",
            content := effectiveContent { initChat with inputValue := "a" } none,
            timestamp := 1000 } with
          failed := true })
    ∧ (sendMessageFinish
        (sendMessageStart { initChat with inputValue := "a" } none 1000).1
        { tempId := "temp-1000", content := "a" } (.failure "err")).container.length
      = (sendMessageStart { initChat with inputValue := "a" } none 1000).1.container.length
    ∧ (sendMessageFinish
        (sendMessageStart { initChat with inputValue := "a" } none 1000).1
        { tempId := "temp-1000", content := "a" } (.failure "err")).toasts
      = (sendMessageStart { initChat with inputValue := "a" } none 1000).1.toasts
        ++ [if "err" = "" then "Failed to send message" else "err"]
    ∧ (sendMessageFinish
        (sendMessageStart { initChat with inputValue := "a" } none 1000).1
        { tempId := "temp-1000", content := "a" } (.failure "err")).isSending = false :=
  c7_failure_flagging_amended { initChat with inputValue := "a" }
    (sendMessageStart { initChat with inputValue := "a" } none 1000).1
    none 1000 { tempId := "temp-1000", content := "a" } "err"
    (by decide) (by decide)

end Disha
